import Mathlib

/-!
Shallow embedding of the meld checkpoint store (src/meld/vault.py) and the
collective channel (src/meld/comm.py).

Scalars stored in the container are modelled as rationals. The hierarchical
container file (results.h5) is modelled as six optional datasets, each a
declared outer shape together with a list of per-stage slices: the source
accesses a dataset only through full stage-axis slices, written by
`dset[..., stage] = value` and read by `dset[..., stage]`, which fail with an
index error when `stage` is outside the current stage-axis extent and with a
shape error when the value does not match the outer shape.

Python exceptions are modelled by an explicit error type; a mutating
operation returns its final state together with an optional error (mutations
performed before the exception persist), while a pure read returns an
`Except` value.
-/

/-- Errors raised by the embedded operations, mirroring the Python exception
kinds raised by the source. -/
inductive MeldError where
  /-- RuntimeError with the given message. -/
  | runtimeError (msg : String) : MeldError
  /-- IOError: a file or directory that should exist does not. -/
  | ioError : MeldError
  /-- TypeError: subscripting the `None` object held in an unopened handle field. -/
  | typeError : MeldError
  /-- AttributeError: calling a method or reading an attribute of `None`,
  or reading an attribute that was never assigned. -/
  | attributeError : MeldError
  /-- KeyError: looking up a dataset name absent from the container. -/
  | keyError : MeldError
  /-- IndexError: a stage index outside the current stage-axis extent. -/
  | indexError : MeldError
  /-- Broadcast error: a written value does not match the dataset shape. -/
  | shapeError : MeldError
  /-- ZeroDivisionError: `stage % backup_freq` with a zero frequency. -/
  | zeroDivError : MeldError
  deriving DecidableEq, Repr

/-- A stage slice of a rank-4 dataset: n_replicas x n_atoms x 3 rationals. -/
abbrev Arr3 := List (List (List ℚ))

/-- A stage slice of a rank-3 dataset: n_replicas x n_springs rationals. -/
abbrev Arr2 := List (List ℚ)

/-- A stage slice of a rank-2 dataset: n_replicas rationals. -/
abbrev Arr1 := List ℚ

/-- Shape check for an n_replicas x n_atoms x 3 slice. -/
def arr3ShapeOk (nrep natm : ℕ) (v : Arr3) : Bool :=
  v.length == nrep && v.all fun m => m.length == natm && m.all fun r => r.length == 3

/-- Shape check for an n_replicas x n_springs slice. -/
def arr2ShapeOk (nrep nspr : ℕ) (v : Arr2) : Bool :=
  v.length == nrep && v.all fun r => r.length == nspr

/-- Shape check for an n_replicas slice. -/
def arr1ShapeOk (nrep : ℕ) (v : Arr1) : Bool :=
  v.length == nrep

/-- Zero-filled n_replicas x n_atoms x 3 slice: datasets are created with
fill value 0. -/
def zeroArr3 (nrep natm : ℕ) : Arr3 :=
  List.replicate nrep (List.replicate natm (List.replicate 3 (0 : ℚ)))

/-- Zero-filled n_replicas x n_springs slice. -/
def zeroArr2 (nrep nspr : ℕ) : Arr2 :=
  List.replicate nrep (List.replicate nspr (0 : ℚ))

/-- Zero-filled n_replicas slice. -/
def zeroArr1 (nrep : ℕ) : Arr1 :=
  List.replicate nrep (0 : ℚ)

/-- A dataset with outer shape n_replicas x n_atoms x 3 and a growable stage
axis, stored as one slice per stage (positions, velocities). -/
structure Dset3 where
  nrep : ℕ
  natm : ℕ
  slices : List Arr3
  deriving DecidableEq, Repr

/-- A dataset with outer shape n_replicas x n_springs and a growable stage
axis (spring_states, spring_energies). -/
structure Dset2 where
  nrep : ℕ
  nspr : ℕ
  slices : List Arr2
  deriving DecidableEq, Repr

/-- A dataset with outer shape n_replicas and a growable stage axis
(lambdas, energies). -/
structure Dset1 where
  nrep : ℕ
  slices : List Arr1
  deriving DecidableEq, Repr

/-- Write a stage slice: `dset[..., stage] = v`. The stage index is
validated against the current extent first, then the value shape against the
outer shape; there is no growing. -/
def Dset3.write (d : Dset3) (stage : ℕ) (v : Arr3) : Except MeldError Dset3 :=
  if stage < d.slices.length then
    if arr3ShapeOk d.nrep d.natm v then
      .ok { d with slices := d.slices.set stage v }
    else .error .shapeError
  else .error .indexError

/-- Read a stage slice: `dset[..., stage]`. -/
def Dset3.read (d : Dset3) (stage : ℕ) : Except MeldError Arr3 :=
  if h : stage < d.slices.length then .ok (d.slices.get ⟨stage, h⟩)
  else .error .indexError

/-- Write a stage slice of a rank-3 dataset. -/
def Dset2.write (d : Dset2) (stage : ℕ) (v : Arr2) : Except MeldError Dset2 :=
  if stage < d.slices.length then
    if arr2ShapeOk d.nrep d.nspr v then
      .ok { d with slices := d.slices.set stage v }
    else .error .shapeError
  else .error .indexError

/-- Read a stage slice of a rank-3 dataset. -/
def Dset2.read (d : Dset2) (stage : ℕ) : Except MeldError Arr2 :=
  if h : stage < d.slices.length then .ok (d.slices.get ⟨stage, h⟩)
  else .error .indexError

/-- Write a stage slice of a rank-2 dataset. -/
def Dset1.write (d : Dset1) (stage : ℕ) (v : Arr1) : Except MeldError Dset1 :=
  if stage < d.slices.length then
    if arr1ShapeOk d.nrep v then
      .ok { d with slices := d.slices.set stage v }
    else .error .shapeError
  else .error .indexError

/-- Read a stage slice of a rank-2 dataset. -/
def Dset1.read (d : Dset1) (stage : ℕ) : Except MeldError Arr1 :=
  if h : stage < d.slices.length then .ok (d.slices.get ⟨stage, h⟩)
  else .error .indexError

/-- Contents of the hierarchical container file (results.h5): the six named
datasets, each absent until created. -/
structure H5Data where
  positions : Option Dset3
  velocities : Option Dset3
  spring_states : Option Dset2
  spring_energies : Option Dset2
  lambdas : Option Dset1
  energies : Option Dset1
  deriving DecidableEq, Repr

/-- A container file as created empty (mode "a" on a missing path): no
datasets yet. -/
def emptyH5 : H5Data :=
  { positions := none, velocities := none, spring_states := none,
    spring_energies := none, lambdas := none, energies := none }

/-- Datasets as provisioned by `_setup_h5_datasets`: each created with an
initial stage-axis extent of 1 (shape `(..., 1)` with unbounded maxshape on
the stage axis) and zero fill. -/
def setupH5Datasets (natm nspr nrep : ℕ) : H5Data :=
  { positions := some { nrep := nrep, natm := natm, slices := [zeroArr3 nrep natm] },
    velocities := some { nrep := nrep, natm := natm, slices := [zeroArr3 nrep natm] },
    spring_states := some { nrep := nrep, nspr := nspr, slices := [zeroArr2 nrep nspr] },
    spring_energies := some { nrep := nrep, nspr := nspr, slices := [zeroArr2 nrep nspr] },
    lambdas := some { nrep := nrep, slices := [zeroArr1 nrep] },
    energies := some { nrep := nrep, slices := [zeroArr1 nrep] } }

/-- Pickled form of a DataStore, as produced by `__getstate__`: every field
except the `_h5_file` handle. -/
structure StoreBlob where
  n_atoms : ℕ
  n_springs : ℕ
  n_replicas : ℕ
  backup_freq : ℕ
  deriving DecidableEq, Repr

/-- Pickled form of an MPICommunicator, as produced by `__getstate__`:
every field except the `_mpi_comm` handle; `_my_rank` is kept when present. -/
structure CommBlob where
  n_atoms : ℕ
  n_replicas : ℕ
  n_springs : ℕ
  my_rank : Option ℕ
  deriving DecidableEq, Repr

/-- Opaque pickled replica-exchange runner blob: the store never inspects
its contents. -/
abbrev RemdBlob := ℕ

/-- The part of the filesystem the store touches: the Data and Data/Backup
directories and the fixed file paths under them. A `none` file is absent. -/
structure FS where
  dataDirExists : Bool
  backupDirExists : Bool
  /-- Contents of Data/data_store.dat. -/
  dataStoreFile : Option StoreBlob
  /-- Contents of Data/communicator.dat. -/
  commFile : Option CommBlob
  /-- Contents of Data/remd_runner.dat. -/
  remdFile : Option RemdBlob
  /-- Contents of Data/results.h5. -/
  h5 : Option H5Data
  /-- Contents of Data/Backup/data_store.dat. -/
  backupDataStoreFile : Option StoreBlob
  /-- Contents of Data/Backup/communicator.dat. -/
  backupCommFile : Option CommBlob
  /-- Contents of Data/Backup/remd_runner.dat. -/
  backupRemdFile : Option RemdBlob
  /-- Contents of Data/Backup/results.h5. -/
  backupH5 : Option H5Data
  deriving DecidableEq, Repr

/-- An empty filesystem: a fresh working directory. -/
def FS.empty : FS :=
  { dataDirExists := false, backupDirExists := false, dataStoreFile := none,
    commFile := none, remdFile := none, h5 := none, backupDataStoreFile := none,
    backupCommFile := none, backupRemdFile := none, backupH5 := none }

/-- The DataStore object: construction parameters plus the `_h5_file` handle
field, which is `none` exactly when the Python field is `None`; an open
handle refers to the container file held in the filesystem state. -/
structure DataStore where
  n_atoms : ℕ
  n_springs : ℕ
  n_replicas : ℕ
  backup_freq : ℕ
  h5_file : Option Unit
  deriving DecidableEq, Repr

/-- Constructor `DataStore(n_atoms, n_springs, n_replicas, backup_freq=100)`:
stores the parameters and sets `_h5_file = None`. -/
def DataStore.mkNew (n_atoms n_springs n_replicas : ℕ) (backup_freq : ℕ := 100) :
    DataStore :=
  { n_atoms := n_atoms, n_springs := n_springs, n_replicas := n_replicas,
    backup_freq := backup_freq, h5_file := none }

/-- The `__getstate__` method: every field except `_h5_file`. -/
def DataStore.getstate (ds : DataStore) : StoreBlob :=
  { n_atoms := ds.n_atoms, n_springs := ds.n_springs,
    n_replicas := ds.n_replicas, backup_freq := ds.backup_freq }

/-- The `__setstate__` method: restore the pickled fields and set
`_h5_file` to `None`. -/
def DataStore.setstate (b : StoreBlob) : DataStore :=
  { n_atoms := b.n_atoms, n_springs := b.n_springs, n_replicas := b.n_replicas,
    backup_freq := b.backup_freq, h5_file := none }

/-- Open the container with `h5py.File(h5_path, "a")`: read/append when the
file exists, create an empty file otherwise (which needs the Data directory
to exist). -/
def h5OpenAppend (fs : FS) : FS × Option MeldError :=
  match fs.h5 with
  | some _ => (fs, none)
  | none =>
      if fs.dataDirExists then ({ fs with h5 := some emptyH5 }, none)
      else (fs, some .ioError)

/-- The `initialize(mode)` method of DataStore. Mode "new" fails when the
Data directory exists, otherwise creates Data and Data/Backup, creates the
container exclusively and provisions the six datasets; mode "existing" opens
the container for read/append; any other mode, including the "safe" mode
promised by the docstring, raises `RuntimeError("Unknown value for mode=...")`.
Mutations made before an exception persist in the returned state. -/
def DataStore.init_mode (ds : DataStore) (fs : FS) (mode : String) :
    DataStore × FS × Option MeldError :=
  if mode = "new" then
    if fs.dataDirExists then
      (ds, fs, some (.runtimeError "Data directory already exists"))
    else
      let fs1 : FS := { fs with dataDirExists := true, backupDirExists := true }
      match fs1.h5 with
      | some _ => (ds, fs1, some .ioError)
      | none =>
          let fs2 : FS :=
            { fs1 with h5 := some (setupH5Datasets ds.n_atoms ds.n_springs ds.n_replicas) }
          ({ ds with h5_file := some () }, fs2, none)
  else if mode = "existing" then
    match h5OpenAppend fs with
    | (fs1, none) => ({ ds with h5_file := some () }, fs1, none)
    | (fs1, some e) => (ds, fs1, some e)
  else
    (ds, fs, some (.runtimeError ("Unknown value for mode=" ++ mode)))

/-- The `close` method: release the handle when open, idempotently. -/
def DataStore.close (ds : DataStore) : DataStore :=
  { ds with h5_file := none }

/-- The `save_data_store` method: pickle this object (via `__getstate__`)
into Data/data_store.dat; writing needs the Data directory. -/
def DataStore.save_data_store (ds : DataStore) (fs : FS) : FS × Option MeldError :=
  if fs.dataDirExists then
    ({ fs with dataStoreFile := some ds.getstate }, none)
  else (fs, some .ioError)

/-- The `load_data_store` classmethod: unpickle Data/data_store.dat
(via `__setstate__`). -/
def DataStore.load_data_store (fs : FS) : Except MeldError DataStore :=
  match fs.dataStoreFile with
  | none => .error .ioError
  | some b => .ok (DataStore.setstate b)

/-- The `save_positions(positions, stage)` method:
`self._h5_file["positions"][..., stage] = positions`. Subscripting a `None`
handle is a type error; a missing dataset is a key error. -/
def DataStore.save_positions (ds : DataStore) (fs : FS) (v : Arr3) (stage : ℕ) :
    FS × Option MeldError :=
  match ds.h5_file with
  | none => (fs, some .typeError)
  | some _ =>
      match fs.h5 with
      | none => (fs, some .ioError)
      | some h5 =>
          match h5.positions with
          | none => (fs, some .keyError)
          | some d =>
              match d.write stage v with
              | .error e => (fs, some e)
              | .ok d1 => ({ fs with h5 := some { h5 with positions := some d1 } }, none)

/-- The `load_positions(stage)` method: `self._h5_file["positions"][..., stage]`. -/
def DataStore.load_positions (ds : DataStore) (fs : FS) (stage : ℕ) :
    Except MeldError Arr3 :=
  match ds.h5_file with
  | none => .error .typeError
  | some _ =>
      match fs.h5 with
      | none => .error .ioError
      | some h5 =>
          match h5.positions with
          | none => .error .keyError
          | some d => d.read stage

/-- The `save_velocities(velocities, stage)` method. -/
def DataStore.save_velocities (ds : DataStore) (fs : FS) (v : Arr3) (stage : ℕ) :
    FS × Option MeldError :=
  match ds.h5_file with
  | none => (fs, some .typeError)
  | some _ =>
      match fs.h5 with
      | none => (fs, some .ioError)
      | some h5 =>
          match h5.velocities with
          | none => (fs, some .keyError)
          | some d =>
              match d.write stage v with
              | .error e => (fs, some e)
              | .ok d1 => ({ fs with h5 := some { h5 with velocities := some d1 } }, none)

/-- The `load_velocities(stage)` method. -/
def DataStore.load_velocities (ds : DataStore) (fs : FS) (stage : ℕ) :
    Except MeldError Arr3 :=
  match ds.h5_file with
  | none => .error .typeError
  | some _ =>
      match fs.h5 with
      | none => .error .ioError
      | some h5 =>
          match h5.velocities with
          | none => .error .keyError
          | some d => d.read stage

/-- The `save_spring_states(spring_states, stage)` method. -/
def DataStore.save_spring_states (ds : DataStore) (fs : FS) (v : Arr2) (stage : ℕ) :
    FS × Option MeldError :=
  match ds.h5_file with
  | none => (fs, some .typeError)
  | some _ =>
      match fs.h5 with
      | none => (fs, some .ioError)
      | some h5 =>
          match h5.spring_states with
          | none => (fs, some .keyError)
          | some d =>
              match d.write stage v with
              | .error e => (fs, some e)
              | .ok d1 => ({ fs with h5 := some { h5 with spring_states := some d1 } }, none)

/-- The `load_spring_states(stage)` method. -/
def DataStore.load_spring_states (ds : DataStore) (fs : FS) (stage : ℕ) :
    Except MeldError Arr2 :=
  match ds.h5_file with
  | none => .error .typeError
  | some _ =>
      match fs.h5 with
      | none => .error .ioError
      | some h5 =>
          match h5.spring_states with
          | none => .error .keyError
          | some d => d.read stage

/-- The `save_spring_energies(spring_energies, stage)` method. -/
def DataStore.save_spring_energies (ds : DataStore) (fs : FS) (v : Arr2) (stage : ℕ) :
    FS × Option MeldError :=
  match ds.h5_file with
  | none => (fs, some .typeError)
  | some _ =>
      match fs.h5 with
      | none => (fs, some .ioError)
      | some h5 =>
          match h5.spring_energies with
          | none => (fs, some .keyError)
          | some d =>
              match d.write stage v with
              | .error e => (fs, some e)
              | .ok d1 => ({ fs with h5 := some { h5 with spring_energies := some d1 } }, none)

/-- The `load_spring_energies(stage)` method. -/
def DataStore.load_spring_energies (ds : DataStore) (fs : FS) (stage : ℕ) :
    Except MeldError Arr2 :=
  match ds.h5_file with
  | none => .error .typeError
  | some _ =>
      match fs.h5 with
      | none => .error .ioError
      | some h5 =>
          match h5.spring_energies with
          | none => .error .keyError
          | some d => d.read stage

/-- The `save_lambdas(lambdas, stage)` method. -/
def DataStore.save_lambdas (ds : DataStore) (fs : FS) (v : Arr1) (stage : ℕ) :
    FS × Option MeldError :=
  match ds.h5_file with
  | none => (fs, some .typeError)
  | some _ =>
      match fs.h5 with
      | none => (fs, some .ioError)
      | some h5 =>
          match h5.lambdas with
          | none => (fs, some .keyError)
          | some d =>
              match d.write stage v with
              | .error e => (fs, some e)
              | .ok d1 => ({ fs with h5 := some { h5 with lambdas := some d1 } }, none)

/-- The `load_lambdas(stage)` method. -/
def DataStore.load_lambdas (ds : DataStore) (fs : FS) (stage : ℕ) :
    Except MeldError Arr1 :=
  match ds.h5_file with
  | none => .error .typeError
  | some _ =>
      match fs.h5 with
      | none => .error .ioError
      | some h5 =>
          match h5.lambdas with
          | none => .error .keyError
          | some d => d.read stage

/-- The `save_energies(energies, stage)` method. -/
def DataStore.save_energies (ds : DataStore) (fs : FS) (v : Arr1) (stage : ℕ) :
    FS × Option MeldError :=
  match ds.h5_file with
  | none => (fs, some .typeError)
  | some _ =>
      match fs.h5 with
      | none => (fs, some .ioError)
      | some h5 =>
          match h5.energies with
          | none => (fs, some .keyError)
          | some d =>
              match d.write stage v with
              | .error e => (fs, some e)
              | .ok d1 => ({ fs with h5 := some { h5 with energies := some d1 } }, none)

/-- The `load_energies(stage)` method. -/
def DataStore.load_energies (ds : DataStore) (fs : FS) (stage : ℕ) :
    Except MeldError Arr1 :=
  match ds.h5_file with
  | none => .error .typeError
  | some _ =>
      match fs.h5 with
      | none => .error .ioError
      | some h5 =>
          match h5.energies with
          | none => .error .keyError
          | some d => d.read stage

/-- Modelled from the spec: `meld.system.state.SystemState` lives in
`meld/system/state.py`, which is not under src/; only its callers are. The
spec describes ReplicaState as positions (A x 3), velocities (A x 3),
spring_states (length S), spring_energies (length S), a scalar lambda and a
scalar energy; the constructor argument order
`SystemState(positions, velocities, spring_states, lam, energy, spring_energies)`
is the one used by `load_states` and by the tests. -/
structure SystemState where
  positions : List (List ℚ)
  velocities : List (List ℚ)
  spring_states : List ℚ
  lam : ℚ
  energy : ℚ
  spring_energies : List ℚ
  deriving DecidableEq, Repr

/-- The `save_states(states, stage)` method: collect each per-quantity field
across the replicas, then write the six stage slices in source order; an
exception from one save aborts the rest. -/
def DataStore.save_states (ds : DataStore) (fs : FS) (states : List SystemState)
    (stage : ℕ) : FS × Option MeldError :=
  let positions : Arr3 := states.map fun s => s.positions
  let velocities : Arr3 := states.map fun s => s.velocities
  let spring_states : Arr2 := states.map fun s => s.spring_states
  let spring_energies : Arr2 := states.map fun s => s.spring_energies
  let lambdas : Arr1 := states.map fun s => s.lam
  let energies : Arr1 := states.map fun s => s.energy
  match DataStore.save_positions ds fs positions stage with
  | (fs1, some e) => (fs1, some e)
  | (fs1, none) =>
  match DataStore.save_velocities ds fs1 velocities stage with
  | (fs2, some e) => (fs2, some e)
  | (fs2, none) =>
  match DataStore.save_spring_states ds fs2 spring_states stage with
  | (fs3, some e) => (fs3, some e)
  | (fs3, none) =>
  match DataStore.save_spring_energies ds fs3 spring_energies stage with
  | (fs4, some e) => (fs4, some e)
  | (fs4, none) =>
  match DataStore.save_lambdas ds fs4 lambdas stage with
  | (fs5, some e) => (fs5, some e)
  | (fs5, none) =>
  match DataStore.save_energies ds fs5 energies stage with
  | (fs6, some e) => (fs6, some e)
  | (fs6, none) => (fs6, none)

/-- The `load_states(stage)` method: read the six stage slices, then rebuild
one SystemState per replica index `i` in `range(n_replicas)`; indexing a
loaded array past its first dimension is an index error. -/
def DataStore.load_states (ds : DataStore) (fs : FS) (stage : ℕ) :
    Except MeldError (List SystemState) := do
  let positions ← DataStore.load_positions ds fs stage
  let velocities ← DataStore.load_velocities ds fs stage
  let spring_states ← DataStore.load_spring_states ds fs stage
  let spring_energies ← DataStore.load_spring_energies ds fs stage
  let lambdas ← DataStore.load_lambdas ds fs stage
  let energies ← DataStore.load_energies ds fs stage
  if ds.n_replicas ≤ positions.length ∧ ds.n_replicas ≤ velocities.length ∧
      ds.n_replicas ≤ spring_states.length ∧ ds.n_replicas ≤ spring_energies.length ∧
      ds.n_replicas ≤ lambdas.length ∧ ds.n_replicas ≤ energies.length then
    .ok ((List.range ds.n_replicas).map fun i =>
      { positions := positions.getD i [], velocities := velocities.getD i [],
        spring_states := spring_states.getD i [], lam := lambdas.getD i 0,
        energy := energies.getD i 0, spring_energies := spring_energies.getD i [] })
  else .error .indexError

/-- The `save_communicator(comm)` method: pickle the communicator blob into
Data/communicator.dat. -/
def DataStore.save_communicator (fs : FS) (b : CommBlob) : FS × Option MeldError :=
  if fs.dataDirExists then ({ fs with commFile := some b }, none)
  else (fs, some .ioError)

/-- The `load_communicator` method: unpickle Data/communicator.dat. The
result of unpickling is `__setstate__` applied to the stored blob, handled
by the communicator model below. -/
def DataStore.load_communicator_blob (fs : FS) : Except MeldError CommBlob :=
  match fs.commFile with
  | none => .error .ioError
  | some b => .ok b

/-- The `save_remd_runner(runner)` method: pickle the opaque runner blob
into Data/remd_runner.dat. -/
def DataStore.save_remd_runner (fs : FS) (b : RemdBlob) : FS × Option MeldError :=
  if fs.dataDirExists then ({ fs with remdFile := some b }, none)
  else (fs, some .ioError)

/-- The `load_remd_runner` method: unpickle Data/remd_runner.dat. -/
def DataStore.load_remd_runner (fs : FS) : Except MeldError RemdBlob :=
  match fs.remdFile with
  | none => .error .ioError
  | some b => .ok b

/-- The `_backup(path)` helper through `shutil.copy`: when the source file
exists its contents replace the backup copy, otherwise nothing happens. -/
def copyIfPresent {α : Type} (src dst : Option α) : Option α :=
  match src with
  | some b => some b
  | none => dst

/-- The `backup(stage)` method: a no-op unless `stage % backup_freq == 0`
(a zero frequency is a zero-division error). When due, copy each present
sidecar file into Data/Backup, then close the container, copy it, and reopen
it with mode "a". Mutations made before an exception persist. -/
def DataStore.backup (ds : DataStore) (fs : FS) (stage : ℕ) :
    DataStore × FS × Option MeldError :=
  if ds.backup_freq = 0 then (ds, fs, some .zeroDivError)
  else if stage % ds.backup_freq = 0 then
    let fs1 : FS :=
      { fs with backupCommFile := copyIfPresent fs.commFile fs.backupCommFile,
                backupDataStoreFile := copyIfPresent fs.dataStoreFile fs.backupDataStoreFile,
                backupRemdFile := copyIfPresent fs.remdFile fs.backupRemdFile }
    match ds.h5_file with
    | none => (ds, fs1, some .attributeError)
    | some _ =>
        let ds1 : DataStore := { ds with h5_file := none }
        let fs2 : FS := { fs1 with backupH5 := copyIfPresent fs1.h5 fs1.backupH5 }
        match h5OpenAppend fs2 with
        | (fs3, none) => ({ ds1 with h5_file := some () }, fs3, none)
        | (fs3, some e) => (ds1, fs3, some e)
  else (ds, fs, none)

/-- Names for the six persisted quantities, used to state properties that
range over all six save/load pairs at once. -/
inductive Quantity where
  | positions | velocities | spring_states | spring_energies | lambdas | energies
  deriving DecidableEq, Repr

/-- Slice type carried by each quantity. -/
def Quantity.Slice : Quantity → Type
  | .positions => Arr3
  | .velocities => Arr3
  | .spring_states => Arr2
  | .spring_energies => Arr2
  | .lambdas => Arr1
  | .energies => Arr1

/-- Dispatch to the `save_<quantity>` method named by `q`. -/
def saveQ (ds : DataStore) (fs : FS) : (q : Quantity) → q.Slice → ℕ →
    FS × Option MeldError
  | .positions, v, stage => DataStore.save_positions ds fs v stage
  | .velocities, v, stage => DataStore.save_velocities ds fs v stage
  | .spring_states, v, stage => DataStore.save_spring_states ds fs v stage
  | .spring_energies, v, stage => DataStore.save_spring_energies ds fs v stage
  | .lambdas, v, stage => DataStore.save_lambdas ds fs v stage
  | .energies, v, stage => DataStore.save_energies ds fs v stage

/-- Dispatch to the `load_<quantity>` method named by `q`. -/
def loadQ (ds : DataStore) (fs : FS) : (q : Quantity) → ℕ →
    Except MeldError q.Slice
  | .positions, stage => DataStore.load_positions ds fs stage
  | .velocities, stage => DataStore.load_velocities ds fs stage
  | .spring_states, stage => DataStore.load_spring_states ds fs stage
  | .spring_energies, stage => DataStore.load_spring_energies ds fs stage
  | .lambdas, stage => DataStore.load_lambdas ds fs stage
  | .energies, stage => DataStore.load_energies ds fs stage

/-- Stage-axis extent of the dataset named by `q` in the container file of
`fs`; 0 when the file or the dataset is absent. -/
def lenQ (fs : FS) (q : Quantity) : ℕ :=
  match fs.h5 with
  | none => 0
  | some h5 =>
      match q with
      | .positions => match h5.positions with | none => 0 | some d => d.slices.length
      | .velocities => match h5.velocities with | none => 0 | some d => d.slices.length
      | .spring_states => match h5.spring_states with | none => 0 | some d => d.slices.length
      | .spring_energies => match h5.spring_energies with | none => 0 | some d => d.slices.length
      | .lambdas => match h5.lambdas with | none => 0 | some d => d.slices.length
      | .energies => match h5.energies with | none => 0 | some d => d.slices.length

/-- Stage-axis extents of the six datasets, in the order of the container
table of the spec. -/
def stageLens (fs : FS) : List ℕ :=
  [lenQ fs .positions, lenQ fs .velocities, lenQ fs .spring_states,
   lenQ fs .spring_energies, lenQ fs .lambdas, lenQ fs .energies]

/-- Shape check of a value against the declared outer shape of the dataset
named by `q`; false when the file or the dataset is absent. -/
def shapeOkQ (fs : FS) : (q : Quantity) → q.Slice → Bool
  | .positions, v =>
      match fs.h5 with
      | none => false
      | some h5 => match h5.positions with
        | none => false
        | some d => arr3ShapeOk d.nrep d.natm v
  | .velocities, v =>
      match fs.h5 with
      | none => false
      | some h5 => match h5.velocities with
        | none => false
        | some d => arr3ShapeOk d.nrep d.natm v
  | .spring_states, v =>
      match fs.h5 with
      | none => false
      | some h5 => match h5.spring_states with
        | none => false
        | some d => arr2ShapeOk d.nrep d.nspr v
  | .spring_energies, v =>
      match fs.h5 with
      | none => false
      | some h5 => match h5.spring_energies with
        | none => false
        | some d => arr2ShapeOk d.nrep d.nspr v
  | .lambdas, v =>
      match fs.h5 with
      | none => false
      | some h5 => match h5.lambdas with
        | none => false
        | some d => arr1ShapeOk d.nrep v
  | .energies, v =>
      match fs.h5 with
      | none => false
      | some h5 => match h5.energies with
        | none => false
        | some d => arr1ShapeOk d.nrep v

/-- Live MPI substrate handle for one process, as returned by
`get_mpi_comm_world`. Collective calls exchange data with the other
processes of the group; since a single-process embedding cannot compute the
remote side, the handle records the data the substrate delivers to the local
process for each kind of collective call. -/
structure MPIWorld where
  /-- Result of `Get_rank` on this process. -/
  world_rank : ℕ
  /-- Scalar delivered to this process by a float scatter. -/
  inScalar : ℚ
  /-- State delivered to this process by a state scatter or broadcast slot. -/
  inState : SystemState
  /-- Full state list delivered to this process by a gather or broadcast. -/
  inStates : List SystemState
  /-- Row list delivered to the root by an energy gather. -/
  inRows : List (List ℚ)
  deriving DecidableEq, Repr

/-- The MPICommunicator object: construction parameters, the `_mpi_comm`
handle (`none` exactly when the Python field is `None`) and the `_my_rank`
attribute (`none` when the attribute was never assigned). -/
structure MPIComm where
  n_atoms : ℕ
  n_replicas : ℕ
  n_springs : ℕ
  mpi_comm : Option MPIWorld
  my_rank : Option ℕ
  deriving DecidableEq, Repr

/-- Constructor `MPICommunicator(n_atoms, n_replicas, n_springs)`: stores the
parameters and sets `_mpi_comm = None`; `_my_rank` is not assigned. -/
def MPIComm.mkNew (n_atoms n_replicas n_springs : ℕ) : MPIComm :=
  { n_atoms := n_atoms, n_replicas := n_replicas, n_springs := n_springs,
    mpi_comm := none, my_rank := none }

/-- The `__getstate__` method: every field except `_mpi_comm`. -/
def MPIComm.getstate (c : MPIComm) : CommBlob :=
  { n_atoms := c.n_atoms, n_replicas := c.n_replicas, n_springs := c.n_springs,
    my_rank := c.my_rank }

/-- The `__setstate__` method: restore the pickled fields and set
`_mpi_comm` to `None`. -/
def MPIComm.setstate (b : CommBlob) : MPIComm :=
  { n_atoms := b.n_atoms, n_replicas := b.n_replicas, n_springs := b.n_springs,
    mpi_comm := none, my_rank := b.my_rank }

/-- The `load_communicator` method of DataStore: unpickling applies
`__setstate__` to the stored blob. -/
def DataStore.load_communicator (fs : FS) : Except MeldError MPIComm :=
  match DataStore.load_communicator_blob fs with
  | .error e => .error e
  | .ok b => .ok (MPIComm.setstate b)

/-- The communicator `initialize` method: join the collective group and
record this process rank. -/
def MPIComm.init_mpi (c : MPIComm) (w : MPIWorld) : MPIComm :=
  { c with mpi_comm := some w, my_rank := some w.world_rank }

/-- The `rank` property: reading `_my_rank` before it was assigned is an
attribute error. -/
def MPIComm.rank (c : MPIComm) : Except MeldError ℕ :=
  match c.my_rank with
  | none => .error .attributeError
  | some r => .ok r

/-- The `is_master` method: `_my_rank == 0`. -/
def MPIComm.is_master (c : MPIComm) : Except MeldError Bool :=
  match c.my_rank with
  | none => .error .attributeError
  | some r => .ok (r == 0)

/-- The `broadcast_lambdas_to_slaves(lambdas)` method:
`self._mpi_comm.scatter(lambdas, root=0)` with the result dropped; calling a
method of a `None` handle is an attribute error. -/
def MPIComm.broadcast_lambdas_to_slaves (c : MPIComm) (lambdas : List ℚ) :
    Except MeldError Unit :=
  match c.mpi_comm with
  | none => .error .attributeError
  | some _ => .ok ()

/-- The `recieve_lambda_from_master` method: the scatter element delivered
to this process. -/
def MPIComm.recieve_lambda_from_master (c : MPIComm) : Except MeldError ℚ :=
  match c.mpi_comm with
  | none => .error .attributeError
  | some w => .ok w.inScalar

/-- The `broadcast_states_to_slaves(states)` method: a scatter returning this
process own element. -/
def MPIComm.broadcast_states_to_slaves (c : MPIComm) (states : List SystemState) :
    Except MeldError (Option SystemState) :=
  match c.mpi_comm with
  | none => .error .attributeError
  | some w => .ok (states.get? w.world_rank)

/-- The `recieve_state_from_master` method. -/
def MPIComm.recieve_state_from_master (c : MPIComm) : Except MeldError SystemState :=
  match c.mpi_comm with
  | none => .error .attributeError
  | some w => .ok w.inState

/-- The `gather_states_from_slaves(state_on_master)` method: on the root, the
rank-ordered list of gathered states. -/
def MPIComm.gather_states_from_slaves (c : MPIComm) (state_on_master : SystemState) :
    Except MeldError (List SystemState) :=
  match c.mpi_comm with
  | none => .error .attributeError
  | some w => .ok w.inStates

/-- The `send_state_to_master(state)` method: the gather result is dropped on
a non-root rank. -/
def MPIComm.send_state_to_master (c : MPIComm) (st : SystemState) :
    Except MeldError Unit :=
  match c.mpi_comm with
  | none => .error .attributeError
  | some _ => .ok ()

/-- The `broadcast_states_for_energy_calc_to_slaves(states)` method: a
broadcast with the result dropped. -/
def MPIComm.broadcast_states_for_energy_calc_to_slaves (c : MPIComm)
    (states : List SystemState) : Except MeldError Unit :=
  match c.mpi_comm with
  | none => .error .attributeError
  | some _ => .ok ()

/-- The `recieve_states_for_energy_calc_from_master` method. -/
def MPIComm.recieve_states_for_energy_calc_from_master (c : MPIComm) :
    Except MeldError (List SystemState) :=
  match c.mpi_comm with
  | none => .error .attributeError
  | some w => .ok w.inStates

/-- The `gather_energies_from_slaves(energies_on_master)` method: the
gathered rows assembled into a matrix on the root. -/
def MPIComm.gather_energies_from_slaves (c : MPIComm) (energies_on_master : List ℚ) :
    Except MeldError (List (List ℚ)) :=
  match c.mpi_comm with
  | none => .error .attributeError
  | some w => .ok w.inRows

/-- The `send_energies_to_master(energies)` method. -/
def MPIComm.send_energies_to_master (c : MPIComm) (energies : List ℚ) :
    Except MeldError Unit :=
  match c.mpi_comm with
  | none => .error .attributeError
  | some _ => .ok ()

/-! Concrete fixtures used by witnesses and counterexamples: a tiny store
with one atom, one spring and one replica, freshly provisioned with mode
"new" on an empty filesystem. -/

/-- Tiny store before opening. -/
def dsTiny : DataStore := DataStore.mkNew 1 1 1

/-- Tiny store after mode "new": handle open. -/
def dsTinyOpen : DataStore := (DataStore.init_mode dsTiny FS.empty "new").1

/-- Filesystem after mode "new" on the tiny store. -/
def fsTiny : FS := (DataStore.init_mode dsTiny FS.empty "new").2.1

/-- Filesystem after saving the lambdas slice `[5]` at stage 0 on the tiny
store. -/
def fsTinySaved : FS := (saveQ dsTinyOpen fsTiny .lambdas [(5 : ℚ)] 0).1

/-- A one-replica, one-atom, one-spring state with all entries zero. -/
def stTiny : SystemState :=
  { positions := [[0, 0, 0]], velocities := [[0, 0, 0]], spring_states := [0],
    lam := 0, energy := 0, spring_energies := [0] }

/-- C1: the docstring of `initialize` promises a "safe" mode that opens the
most recent backup copy read-only, but the implementation handles only "new"
and "existing": mode "safe" falls into the catch-all branch and raises
`RuntimeError("Unknown value for mode=safe")`, leaving the store and the
filesystem untouched, so no read-only session ever starts. -/
theorem c1_safe_mode_rejected (ds : DataStore) (fs : FS) :
    DataStore.init_mode ds fs "safe" =
      (ds, fs, some (.runtimeError "Unknown value for mode=safe")) := by
  simp [DataStore.init_mode]

/-- C10: when the Data directory already exists, `initialize` with mode "new"
raises the configuration error before performing any mutation: the returned
store and filesystem are exactly the ones passed in. -/
theorem c10_new_fails_atomically (ds : DataStore) (fs : FS)
    (h : fs.dataDirExists = true) :
    DataStore.init_mode ds fs "new" =
      (ds, fs, some (.runtimeError "Data directory already exists")) := by
  simp [DataStore.init_mode, h]

/-- C10 witness: the failure at a concrete store and an occupied directory. -/
theorem c10_new_fails_atomically_witness :
    DataStore.init_mode dsTiny { FS.empty with dataDirExists := true } "new" =
      (dsTiny, { FS.empty with dataDirExists := true },
        some (.runtimeError "Data directory already exists")) :=
  c10_new_fails_atomically dsTiny { FS.empty with dataDirExists := true } rfl

/-- C4: on a freshly constructed communicator, before the MPI channel is
joined, the rank property is undefined (reading it is an attribute error)
and every transfer primitive fails with the uninitialized-channel error,
because the `_mpi_comm` handle is still `None`. -/
theorem c4_uninitialized_channel (na nr ns : ℕ) (lambdas energies : List ℚ)
    (states : List SystemState) (st : SystemState) :
    (MPIComm.mkNew na nr ns).rank = .error .attributeError ∧
    (MPIComm.mkNew na nr ns).is_master = .error .attributeError ∧
    (MPIComm.mkNew na nr ns).broadcast_lambdas_to_slaves lambdas
      = .error .attributeError ∧
    (MPIComm.mkNew na nr ns).recieve_lambda_from_master = .error .attributeError ∧
    (MPIComm.mkNew na nr ns).broadcast_states_to_slaves states
      = .error .attributeError ∧
    (MPIComm.mkNew na nr ns).recieve_state_from_master = .error .attributeError ∧
    (MPIComm.mkNew na nr ns).gather_states_from_slaves st = .error .attributeError ∧
    (MPIComm.mkNew na nr ns).send_state_to_master st = .error .attributeError ∧
    (MPIComm.mkNew na nr ns).broadcast_states_for_energy_calc_to_slaves states
      = .error .attributeError ∧
    (MPIComm.mkNew na nr ns).recieve_states_for_energy_calc_from_master
      = .error .attributeError ∧
    (MPIComm.mkNew na nr ns).gather_energies_from_slaves energies
      = .error .attributeError ∧
    (MPIComm.mkNew na nr ns).send_energies_to_master energies
      = .error .attributeError :=
  ⟨rfl, rfl, rfl, rfl, rfl, rfl, rfl, rfl, rfl, rfl, rfl, rfl⟩

/-- C9: a store saved with save_data_store and a communicator saved with
save_communicator reload with their runtime handle fields reset: whatever
handle was live at save time, the loaded store has `_h5_file = None` and the
loaded communicator has `_mpi_comm = None`. -/
theorem c9_no_live_handles (ds : DataStore) (c : MPIComm) (fs fs1 fs2 : FS)
    (ds2 : DataStore) (c2 : MPIComm)
    (h1 : DataStore.save_data_store ds fs = (fs1, none))
    (h2 : DataStore.save_communicator fs1 (MPIComm.getstate c) = (fs2, none))
    (h3 : DataStore.load_data_store fs2 = .ok ds2)
    (h4 : DataStore.load_communicator fs2 = .ok c2) :
    ds2.h5_file = none ∧ c2.mpi_comm = none := by
  unfold DataStore.save_data_store at h1
  split at h1
  · rw [Prod.mk.injEq] at h1
    obtain ⟨e1, -⟩ := h1
    unfold DataStore.save_communicator at h2
    split at h2
    · rw [Prod.mk.injEq] at h2
      obtain ⟨e2, -⟩ := h2
      have hs : fs2.dataStoreFile = some ds.getstate := by
        rw [← e2]
        show fs1.dataStoreFile = some ds.getstate
        rw [← e1]
      have hc : fs2.commFile = some (MPIComm.getstate c) := by
        rw [← e2]
      have h3a : Except.ok (ε := MeldError) (DataStore.setstate ds.getstate)
          = .ok ds2 := by
        rw [← h3]
        unfold DataStore.load_data_store
        rw [hs]
      have h4a : Except.ok (ε := MeldError) (MPIComm.setstate (MPIComm.getstate c))
          = .ok c2 := by
        rw [← h4]
        unfold DataStore.load_communicator DataStore.load_communicator_blob
        rw [hc]
      injection h3a with e3
      injection h4a with e4
      rw [← e3, ← e4]
      exact ⟨rfl, rfl⟩
    · simp at h2
  · simp at h1

/-- C3 counterexample: `initialize` with mode "existing" performs no
dimension validation. A store constructed with five atoms, five springs and
five replicas opens a container whose datasets were provisioned for one
atom, one spring and one replica, and the call succeeds with no error
instead of raising a fatal configuration error. -/
theorem c3_counterexample :
    DataStore.init_mode (DataStore.mkNew 5 5 5) fsTiny "existing" =
      ({ DataStore.mkNew 5 5 5 with h5_file := some () }, fsTiny, none) := by
  decide

/-- C3 amended: `initialize` with mode "existing" merely opens the container
file for read/append; it checks neither that the six series exist nor that
their dimensions match the construction parameters, and it never raises a
mismatch error. -/
theorem c3_existing_opens_without_validation (ds : DataStore) (fs : FS)
    (h : fs.h5.isSome = true) :
    DataStore.init_mode ds fs "existing" =
      ({ ds with h5_file := some () }, fs, none) := by
  obtain ⟨v, hv⟩ := Option.isSome_iff_exists.mp h
  simp [DataStore.init_mode, h5OpenAppend, hv]

/-- C3 witness: the amended behavior at the mismatched concrete input. -/
theorem c3_existing_opens_without_validation_witness :
    DataStore.init_mode (DataStore.mkNew 5 5 5) fsTiny "existing" =
      ({ DataStore.mkNew 5 5 5 with h5_file := some () }, fsTiny, none) :=
  c3_existing_opens_without_validation (DataStore.mkNew 5 5 5) fsTiny (by decide)

/-- C7: with a positive backup frequency, an open handle and a present
container file, `backup(stage)` copies the present sidecar files and the
container into Data/Backup exactly when `stage % backup_freq == 0` (an
absent sidecar leaves its previous backup copy alone and raises no error),
and otherwise changes nothing. -/
theorem c7_backup_iff (ds : DataStore) (fs : FS) (stage : ℕ)
    (hfreq : ds.backup_freq ≠ 0) (hopen : ds.h5_file = some ())
    (hfile : fs.h5.isSome = true) :
    (stage % ds.backup_freq = 0 →
      DataStore.backup ds fs stage =
        (ds, { fs with
                backupCommFile := copyIfPresent fs.commFile fs.backupCommFile,
                backupDataStoreFile :=
                  copyIfPresent fs.dataStoreFile fs.backupDataStoreFile,
                backupRemdFile := copyIfPresent fs.remdFile fs.backupRemdFile,
                backupH5 := fs.h5 }, none)) ∧
    (stage % ds.backup_freq ≠ 0 →
      DataStore.backup ds fs stage = (ds, fs, none)) := by
  obtain ⟨v, hv⟩ := Option.isSome_iff_exists.mp hfile
  constructor
  · intro hdue
    have hds : { ds with h5_file := some () } = ds := by
      cases ds
      simp_all
    unfold DataStore.backup
    rw [if_neg hfreq, if_pos hdue, hopen]
    simp only [h5OpenAppend, copyIfPresent, hv]
    rw [← hds]
  · intro hnot
    unfold DataStore.backup
    rw [if_neg hfreq, if_neg hnot]

/-- Filesystem for the backup witnesses: the tiny store with a communicator
sidecar and a runner sidecar present, and data_store.dat absent. -/
def fsBak : FS :=
  { fsTiny with commFile := some (MPIComm.getstate (MPIComm.mkNew 1 1 1)),
                remdFile := some 7 }

/-- Filesystem after a due backup on the tiny store. -/
def fsBakDone : FS := (DataStore.backup dsTinyOpen fsBak 0).2.1

/-- C7 witness: with backup frequency 100, stages 0 and 100 copy (the absent
data_store.dat sidecar is silently skipped) and stage 1 changes nothing. -/
theorem c7_backup_iff_witness :
    DataStore.backup dsTinyOpen fsBak 0 = (dsTinyOpen, fsBakDone, none) ∧
    DataStore.backup dsTinyOpen fsBak 100 = (dsTinyOpen, fsBakDone, none) ∧
    DataStore.backup dsTinyOpen fsBak 1 = (dsTinyOpen, fsBak, none) :=
  ⟨(c7_backup_iff dsTinyOpen fsBak 0 (by decide) (by decide) (by decide)).1 (by decide),
   (c7_backup_iff dsTinyOpen fsBak 100 (by decide) (by decide) (by decide)).1 (by decide),
   (c7_backup_iff dsTinyOpen fsBak 1 (by decide) (by decide) (by decide)).2 (by decide)⟩

/-- Read of an in-range stage succeeds for every quantity, provided the
handle is open. -/
theorem loadQ_ok_of_lt (ds : DataStore) (fs : FS) (q : Quantity) (stage : ℕ)
    (hopen : ds.h5_file = some ()) (h : stage < lenQ fs q) :
    ∃ v, loadQ ds fs q stage = .ok v := by
  cases q
  case positions =>
    show ∃ v, DataStore.load_positions ds fs stage = .ok v
    unfold DataStore.load_positions
    unfold lenQ at h
    rw [hopen]
    rcases hfs : fs.h5 with _ | h5
    · simp only [hfs] at h
      omega
    · simp only [hfs] at h
      rcases hp : h5.positions with _ | d
      · simp only [hp] at h
        omega
      · simp only [hp] at h ⊢
        exact ⟨_, dif_pos h⟩
  case velocities =>
    show ∃ v, DataStore.load_velocities ds fs stage = .ok v
    unfold DataStore.load_velocities
    unfold lenQ at h
    rw [hopen]
    rcases hfs : fs.h5 with _ | h5
    · simp only [hfs] at h
      omega
    · simp only [hfs] at h
      rcases hp : h5.velocities with _ | d
      · simp only [hp] at h
        omega
      · simp only [hp] at h ⊢
        exact ⟨_, dif_pos h⟩
  case spring_states =>
    show ∃ v, DataStore.load_spring_states ds fs stage = .ok v
    unfold DataStore.load_spring_states
    unfold lenQ at h
    rw [hopen]
    rcases hfs : fs.h5 with _ | h5
    · simp only [hfs] at h
      omega
    · simp only [hfs] at h
      rcases hp : h5.spring_states with _ | d
      · simp only [hp] at h
        omega
      · simp only [hp] at h ⊢
        exact ⟨_, dif_pos h⟩
  case spring_energies =>
    show ∃ v, DataStore.load_spring_energies ds fs stage = .ok v
    unfold DataStore.load_spring_energies
    unfold lenQ at h
    rw [hopen]
    rcases hfs : fs.h5 with _ | h5
    · simp only [hfs] at h
      omega
    · simp only [hfs] at h
      rcases hp : h5.spring_energies with _ | d
      · simp only [hp] at h
        omega
      · simp only [hp] at h ⊢
        exact ⟨_, dif_pos h⟩
  case lambdas =>
    show ∃ v, DataStore.load_lambdas ds fs stage = .ok v
    unfold DataStore.load_lambdas
    unfold lenQ at h
    rw [hopen]
    rcases hfs : fs.h5 with _ | h5
    · simp only [hfs] at h
      omega
    · simp only [hfs] at h
      rcases hp : h5.lambdas with _ | d
      · simp only [hp] at h
        omega
      · simp only [hp] at h ⊢
        exact ⟨_, dif_pos h⟩
  case energies =>
    show ∃ v, DataStore.load_energies ds fs stage = .ok v
    unfold DataStore.load_energies
    unfold lenQ at h
    rw [hopen]
    rcases hfs : fs.h5 with _ | h5
    · simp only [hfs] at h
      omega
    · simp only [hfs] at h
      rcases hp : h5.energies with _ | d
      · simp only [hp] at h
        omega
      · simp only [hp] at h ⊢
        exact ⟨_, dif_pos h⟩

/-- Characterization of a successful `save_positions` call: the handle is
open, the dataset exists, the stage is in range, and the result replaces the
stage slice of the positions dataset, touching nothing else. -/
theorem save_positions_eq (ds : DataStore) (fs : FS) (v : Arr3) (stage : ℕ)
    (fs1 : FS) (h : DataStore.save_positions ds fs v stage = (fs1, none)) :
    ∃ h5 d, ds.h5_file = some () ∧ fs.h5 = some h5 ∧ h5.positions = some d ∧
      stage < d.slices.length ∧
      fs1 = { fs with
        h5 := some { h5 with
          positions := some { d with slices := d.slices.set stage v } } } := by
  unfold DataStore.save_positions at h
  rcases hds : ds.h5_file with _ | u
  · simp only [hds] at h
    simp at h
  · simp only [hds] at h
    rcases hfs : fs.h5 with _ | h5
    · simp only [hfs] at h
      simp at h
    · simp only [hfs] at h
      rcases hp : h5.positions with _ | d
      · simp only [hp] at h
        simp at h
      · simp only [hp] at h
        rcases hw : Dset3.write d stage v with e | d1
        · simp only [hw] at h
          simp at h
        · simp only [hw] at h
          rw [Prod.mk.injEq] at h
          unfold Dset3.write at hw
          by_cases hlt : stage < d.slices.length
          · rw [if_pos hlt] at hw
            by_cases hsh : arr3ShapeOk d.nrep d.natm v = true
            · rw [if_pos hsh] at hw
              injection hw with hw1
              exact ⟨h5, d, rfl, rfl, hp, hlt, by rw [← h.1, hw1]⟩
            · rw [if_neg hsh] at hw
              simp at hw
          · rw [if_neg hlt] at hw
            simp at hw

/-- Characterization of a successful `save_velocities` call: the handle is
open, the dataset exists, the stage is in range, and the result replaces the
stage slice of the velocities dataset, touching nothing else. -/
theorem save_velocities_eq (ds : DataStore) (fs : FS) (v : Arr3) (stage : ℕ)
    (fs1 : FS) (h : DataStore.save_velocities ds fs v stage = (fs1, none)) :
    ∃ h5 d, ds.h5_file = some () ∧ fs.h5 = some h5 ∧ h5.velocities = some d ∧
      stage < d.slices.length ∧
      fs1 = { fs with
        h5 := some { h5 with
          velocities := some { d with slices := d.slices.set stage v } } } := by
  unfold DataStore.save_velocities at h
  rcases hds : ds.h5_file with _ | u
  · simp only [hds] at h
    simp at h
  · simp only [hds] at h
    rcases hfs : fs.h5 with _ | h5
    · simp only [hfs] at h
      simp at h
    · simp only [hfs] at h
      rcases hp : h5.velocities with _ | d
      · simp only [hp] at h
        simp at h
      · simp only [hp] at h
        rcases hw : Dset3.write d stage v with e | d1
        · simp only [hw] at h
          simp at h
        · simp only [hw] at h
          rw [Prod.mk.injEq] at h
          unfold Dset3.write at hw
          by_cases hlt : stage < d.slices.length
          · rw [if_pos hlt] at hw
            by_cases hsh : arr3ShapeOk d.nrep d.natm v = true
            · rw [if_pos hsh] at hw
              injection hw with hw1
              exact ⟨h5, d, rfl, rfl, hp, hlt, by rw [← h.1, hw1]⟩
            · rw [if_neg hsh] at hw
              simp at hw
          · rw [if_neg hlt] at hw
            simp at hw

/-- Characterization of a successful `save_spring_states` call: the handle is
open, the dataset exists, the stage is in range, and the result replaces the
stage slice of the spring_states dataset, touching nothing else. -/
theorem save_spring_states_eq (ds : DataStore) (fs : FS) (v : Arr2) (stage : ℕ)
    (fs1 : FS) (h : DataStore.save_spring_states ds fs v stage = (fs1, none)) :
    ∃ h5 d, ds.h5_file = some () ∧ fs.h5 = some h5 ∧ h5.spring_states = some d ∧
      stage < d.slices.length ∧
      fs1 = { fs with
        h5 := some { h5 with
          spring_states := some { d with slices := d.slices.set stage v } } } := by
  unfold DataStore.save_spring_states at h
  rcases hds : ds.h5_file with _ | u
  · simp only [hds] at h
    simp at h
  · simp only [hds] at h
    rcases hfs : fs.h5 with _ | h5
    · simp only [hfs] at h
      simp at h
    · simp only [hfs] at h
      rcases hp : h5.spring_states with _ | d
      · simp only [hp] at h
        simp at h
      · simp only [hp] at h
        rcases hw : Dset2.write d stage v with e | d1
        · simp only [hw] at h
          simp at h
        · simp only [hw] at h
          rw [Prod.mk.injEq] at h
          unfold Dset2.write at hw
          by_cases hlt : stage < d.slices.length
          · rw [if_pos hlt] at hw
            by_cases hsh : arr2ShapeOk d.nrep d.nspr v = true
            · rw [if_pos hsh] at hw
              injection hw with hw1
              exact ⟨h5, d, rfl, rfl, hp, hlt, by rw [← h.1, hw1]⟩
            · rw [if_neg hsh] at hw
              simp at hw
          · rw [if_neg hlt] at hw
            simp at hw

/-- Characterization of a successful `save_spring_energies` call: the handle is
open, the dataset exists, the stage is in range, and the result replaces the
stage slice of the spring_energies dataset, touching nothing else. -/
theorem save_spring_energies_eq (ds : DataStore) (fs : FS) (v : Arr2) (stage : ℕ)
    (fs1 : FS) (h : DataStore.save_spring_energies ds fs v stage = (fs1, none)) :
    ∃ h5 d, ds.h5_file = some () ∧ fs.h5 = some h5 ∧ h5.spring_energies = some d ∧
      stage < d.slices.length ∧
      fs1 = { fs with
        h5 := some { h5 with
          spring_energies := some { d with slices := d.slices.set stage v } } } := by
  unfold DataStore.save_spring_energies at h
  rcases hds : ds.h5_file with _ | u
  · simp only [hds] at h
    simp at h
  · simp only [hds] at h
    rcases hfs : fs.h5 with _ | h5
    · simp only [hfs] at h
      simp at h
    · simp only [hfs] at h
      rcases hp : h5.spring_energies with _ | d
      · simp only [hp] at h
        simp at h
      · simp only [hp] at h
        rcases hw : Dset2.write d stage v with e | d1
        · simp only [hw] at h
          simp at h
        · simp only [hw] at h
          rw [Prod.mk.injEq] at h
          unfold Dset2.write at hw
          by_cases hlt : stage < d.slices.length
          · rw [if_pos hlt] at hw
            by_cases hsh : arr2ShapeOk d.nrep d.nspr v = true
            · rw [if_pos hsh] at hw
              injection hw with hw1
              exact ⟨h5, d, rfl, rfl, hp, hlt, by rw [← h.1, hw1]⟩
            · rw [if_neg hsh] at hw
              simp at hw
          · rw [if_neg hlt] at hw
            simp at hw

/-- Characterization of a successful `save_lambdas` call: the handle is
open, the dataset exists, the stage is in range, and the result replaces the
stage slice of the lambdas dataset, touching nothing else. -/
theorem save_lambdas_eq (ds : DataStore) (fs : FS) (v : Arr1) (stage : ℕ)
    (fs1 : FS) (h : DataStore.save_lambdas ds fs v stage = (fs1, none)) :
    ∃ h5 d, ds.h5_file = some () ∧ fs.h5 = some h5 ∧ h5.lambdas = some d ∧
      stage < d.slices.length ∧
      fs1 = { fs with
        h5 := some { h5 with
          lambdas := some { d with slices := d.slices.set stage v } } } := by
  unfold DataStore.save_lambdas at h
  rcases hds : ds.h5_file with _ | u
  · simp only [hds] at h
    simp at h
  · simp only [hds] at h
    rcases hfs : fs.h5 with _ | h5
    · simp only [hfs] at h
      simp at h
    · simp only [hfs] at h
      rcases hp : h5.lambdas with _ | d
      · simp only [hp] at h
        simp at h
      · simp only [hp] at h
        rcases hw : Dset1.write d stage v with e | d1
        · simp only [hw] at h
          simp at h
        · simp only [hw] at h
          rw [Prod.mk.injEq] at h
          unfold Dset1.write at hw
          by_cases hlt : stage < d.slices.length
          · rw [if_pos hlt] at hw
            by_cases hsh : arr1ShapeOk d.nrep v = true
            · rw [if_pos hsh] at hw
              injection hw with hw1
              exact ⟨h5, d, rfl, rfl, hp, hlt, by rw [← h.1, hw1]⟩
            · rw [if_neg hsh] at hw
              simp at hw
          · rw [if_neg hlt] at hw
            simp at hw

/-- Characterization of a successful `save_energies` call: the handle is
open, the dataset exists, the stage is in range, and the result replaces the
stage slice of the energies dataset, touching nothing else. -/
theorem save_energies_eq (ds : DataStore) (fs : FS) (v : Arr1) (stage : ℕ)
    (fs1 : FS) (h : DataStore.save_energies ds fs v stage = (fs1, none)) :
    ∃ h5 d, ds.h5_file = some () ∧ fs.h5 = some h5 ∧ h5.energies = some d ∧
      stage < d.slices.length ∧
      fs1 = { fs with
        h5 := some { h5 with
          energies := some { d with slices := d.slices.set stage v } } } := by
  unfold DataStore.save_energies at h
  rcases hds : ds.h5_file with _ | u
  · simp only [hds] at h
    simp at h
  · simp only [hds] at h
    rcases hfs : fs.h5 with _ | h5
    · simp only [hfs] at h
      simp at h
    · simp only [hfs] at h
      rcases hp : h5.energies with _ | d
      · simp only [hp] at h
        simp at h
      · simp only [hp] at h
        rcases hw : Dset1.write d stage v with e | d1
        · simp only [hw] at h
          simp at h
        · simp only [hw] at h
          rw [Prod.mk.injEq] at h
          unfold Dset1.write at hw
          by_cases hlt : stage < d.slices.length
          · rw [if_pos hlt] at hw
            by_cases hsh : arr1ShapeOk d.nrep v = true
            · rw [if_pos hsh] at hw
              injection hw with hw1
              exact ⟨h5, d, rfl, rfl, hp, hlt, by rw [← h.1, hw1]⟩
            · rw [if_neg hsh] at hw
              simp at hw
          · rw [if_neg hlt] at hw
            simp at hw

/-- C5 counterexample: on a freshly provisioned store every stage axis has
extent 1, so at stage 1 the save itself raises an index error and the
claimed save-then-load round trip cannot return the value: the claim fails
for stages at or beyond the current extent. -/
theorem c5_counterexample :
    ¬ ∃ fs1, saveQ dsTinyOpen fsTiny .energies [(3 : ℚ)] 1 = (fs1, none) ∧
        loadQ dsTinyOpen fs1 .energies 1 = .ok [(3 : ℚ)] := by
  rintro ⟨fs1, h1, -⟩
  have hs : (saveQ dsTinyOpen fsTiny .energies [(3 : ℚ)] 1).2 = some .indexError := by
    decide
  rw [h1] at hs
  exact Option.noConfusion hs

/-- Helper: a successful save of any quantity is read back exactly by the
load of the same quantity at the same stage. -/
theorem saveQ_load_eq (ds : DataStore) (fs fs1 : FS) (q : Quantity)
    (v : q.Slice) (stage : ℕ) (hsave : saveQ ds fs q v stage = (fs1, none)) :
    loadQ ds fs1 q stage = .ok v := by
  cases q
  case positions =>
    obtain ⟨h5, d, hds, hfs, hp, hlt, rfl⟩ :=
      save_positions_eq ds fs v stage fs1 hsave
    simp only [loadQ]
    unfold DataStore.load_positions
    simp only [hds, Dset3.read]
    rw [dif_pos (by simpa using hlt)]
    exact congrArg Except.ok (List.getElem_set_self _)
  case velocities =>
    obtain ⟨h5, d, hds, hfs, hp, hlt, rfl⟩ :=
      save_velocities_eq ds fs v stage fs1 hsave
    simp only [loadQ]
    unfold DataStore.load_velocities
    simp only [hds, Dset3.read]
    rw [dif_pos (by simpa using hlt)]
    exact congrArg Except.ok (List.getElem_set_self _)
  case spring_states =>
    obtain ⟨h5, d, hds, hfs, hp, hlt, rfl⟩ :=
      save_spring_states_eq ds fs v stage fs1 hsave
    simp only [loadQ]
    unfold DataStore.load_spring_states
    simp only [hds, Dset2.read]
    rw [dif_pos (by simpa using hlt)]
    exact congrArg Except.ok (List.getElem_set_self _)
  case spring_energies =>
    obtain ⟨h5, d, hds, hfs, hp, hlt, rfl⟩ :=
      save_spring_energies_eq ds fs v stage fs1 hsave
    simp only [loadQ]
    unfold DataStore.load_spring_energies
    simp only [hds, Dset2.read]
    rw [dif_pos (by simpa using hlt)]
    exact congrArg Except.ok (List.getElem_set_self _)
  case lambdas =>
    obtain ⟨h5, d, hds, hfs, hp, hlt, rfl⟩ :=
      save_lambdas_eq ds fs v stage fs1 hsave
    simp only [loadQ]
    unfold DataStore.load_lambdas
    simp only [hds, Dset1.read]
    rw [dif_pos (by simpa using hlt)]
    exact congrArg Except.ok (List.getElem_set_self _)
  case energies =>
    obtain ⟨h5, d, hds, hfs, hp, hlt, rfl⟩ :=
      save_energies_eq ds fs v stage fs1 hsave
    simp only [loadQ]
    unfold DataStore.load_energies
    simp only [hds, Dset1.read]
    rw [dif_pos (by simpa using hlt)]
    exact congrArg Except.ok (List.getElem_set_self _)

/-- C5 amended: for every quantity, every value and every stage at which
the save succeeds (the stage lies within the current stage-axis extent and
the value has the dataset shape), loading the same stage from the resulting
state returns exactly the saved value. -/
theorem c5_save_load_round_trip (ds : DataStore) (fs fs1 : FS) (q : Quantity)
    (v : q.Slice) (stage : ℕ) (hsave : saveQ ds fs q v stage = (fs1, none)) :
    loadQ ds fs1 q stage = .ok v :=
  saveQ_load_eq ds fs fs1 q v stage hsave

/-- C5 witness: the round trip at stage 0 for the lambdas series of the tiny
store. -/
theorem c5_save_load_round_trip_witness :
    loadQ dsTinyOpen fsTinySaved .lambdas 0 = .ok [(5 : ℚ)] :=
  c5_save_load_round_trip dsTinyOpen fsTiny fsTinySaved .lambdas [(5 : ℚ)] 0
    (by decide)

/-- Write at a stage at or beyond the current stage-axis extent fails with
an index error and leaves the filesystem unchanged, for every quantity whose
series exists, on a store with an open handle: the series is never grown. -/
theorem saveQ_oob_indexError (ds : DataStore) (fs : FS) (q : Quantity)
    (v : q.Slice) (stage : ℕ) (hopen : ds.h5_file = some ())
    (hpos : 0 < lenQ fs q) (hge : lenQ fs q ≤ stage) :
    saveQ ds fs q v stage = (fs, some .indexError) := by
  cases q
  case positions =>
    simp only [saveQ]
    unfold DataStore.save_positions
    simp only [hopen]
    rcases hfs : fs.h5 with _ | h5
    · unfold lenQ at hpos
      simp only [hfs] at hpos
      omega
    · rcases hp : h5.positions with _ | d
      · unfold lenQ at hpos
        simp only [hfs, hp] at hpos
        omega
      · simp only [hp]
        unfold lenQ at hge
        simp only [hfs, hp] at hge
        unfold Dset3.write
        rw [if_neg (by omega)]
  case velocities =>
    simp only [saveQ]
    unfold DataStore.save_velocities
    simp only [hopen]
    rcases hfs : fs.h5 with _ | h5
    · unfold lenQ at hpos
      simp only [hfs] at hpos
      omega
    · rcases hp : h5.velocities with _ | d
      · unfold lenQ at hpos
        simp only [hfs, hp] at hpos
        omega
      · simp only [hp]
        unfold lenQ at hge
        simp only [hfs, hp] at hge
        unfold Dset3.write
        rw [if_neg (by omega)]
  case spring_states =>
    simp only [saveQ]
    unfold DataStore.save_spring_states
    simp only [hopen]
    rcases hfs : fs.h5 with _ | h5
    · unfold lenQ at hpos
      simp only [hfs] at hpos
      omega
    · rcases hp : h5.spring_states with _ | d
      · unfold lenQ at hpos
        simp only [hfs, hp] at hpos
        omega
      · simp only [hp]
        unfold lenQ at hge
        simp only [hfs, hp] at hge
        unfold Dset2.write
        rw [if_neg (by omega)]
  case spring_energies =>
    simp only [saveQ]
    unfold DataStore.save_spring_energies
    simp only [hopen]
    rcases hfs : fs.h5 with _ | h5
    · unfold lenQ at hpos
      simp only [hfs] at hpos
      omega
    · rcases hp : h5.spring_energies with _ | d
      · unfold lenQ at hpos
        simp only [hfs, hp] at hpos
        omega
      · simp only [hp]
        unfold lenQ at hge
        simp only [hfs, hp] at hge
        unfold Dset2.write
        rw [if_neg (by omega)]
  case lambdas =>
    simp only [saveQ]
    unfold DataStore.save_lambdas
    simp only [hopen]
    rcases hfs : fs.h5 with _ | h5
    · unfold lenQ at hpos
      simp only [hfs] at hpos
      omega
    · rcases hp : h5.lambdas with _ | d
      · unfold lenQ at hpos
        simp only [hfs, hp] at hpos
        omega
      · simp only [hp]
        unfold lenQ at hge
        simp only [hfs, hp] at hge
        unfold Dset1.write
        rw [if_neg (by omega)]
  case energies =>
    simp only [saveQ]
    unfold DataStore.save_energies
    simp only [hopen]
    rcases hfs : fs.h5 with _ | h5
    · unfold lenQ at hpos
      simp only [hfs] at hpos
      omega
    · rcases hp : h5.energies with _ | d
      · unfold lenQ at hpos
        simp only [hfs, hp] at hpos
        omega
      · simp only [hp]
        unfold lenQ at hge
        simp only [hfs, hp] at hge
        unfold Dset1.write
        rw [if_neg (by omega)]

/-- A successful write leaves the stage-axis extents of all six series
unchanged. -/
theorem saveQ_preserves_lens (ds : DataStore) (fs fs1 : FS) (q : Quantity)
    (v : q.Slice) (stage : ℕ) (h : saveQ ds fs q v stage = (fs1, none)) :
    stageLens fs1 = stageLens fs := by
  cases q
  case positions =>
    obtain ⟨h5, d, hds, hfs, hp, hlt, rfl⟩ := save_positions_eq ds fs v stage fs1 h
    simp [stageLens, lenQ, hfs, hp]
  case velocities =>
    obtain ⟨h5, d, hds, hfs, hp, hlt, rfl⟩ := save_velocities_eq ds fs v stage fs1 h
    simp [stageLens, lenQ, hfs, hp]
  case spring_states =>
    obtain ⟨h5, d, hds, hfs, hp, hlt, rfl⟩ := save_spring_states_eq ds fs v stage fs1 h
    simp [stageLens, lenQ, hfs, hp]
  case spring_energies =>
    obtain ⟨h5, d, hds, hfs, hp, hlt, rfl⟩ := save_spring_energies_eq ds fs v stage fs1 h
    simp [stageLens, lenQ, hfs, hp]
  case lambdas =>
    obtain ⟨h5, d, hds, hfs, hp, hlt, rfl⟩ := save_lambdas_eq ds fs v stage fs1 h
    simp [stageLens, lenQ, hfs, hp]
  case energies =>
    obtain ⟨h5, d, hds, hfs, hp, hlt, rfl⟩ := save_energies_eq ds fs v stage fs1 h
    simp [stageLens, lenQ, hfs, hp]

/-- C2 counterexample: on the freshly provisioned tiny store the lambdas
series has stage-axis extent 1; the write at stage 1 raises an index error
and leaves the filesystem untouched, instead of growing the series and
succeeding as the claim states. -/
theorem c2_counterexample :
    lenQ fsTiny .lambdas = 1 ∧
    (saveQ dsTinyOpen fsTiny .lambdas [(0 : ℚ)] 1).2 = some .indexError ∧
    (saveQ dsTinyOpen fsTiny .lambdas [(0 : ℚ)] 1).1 = fsTiny :=
  ⟨by decide, by decide, by decide⟩

/-- C2 amended: on a store with an open handle whose series exists, a save
at a stage at or beyond the current stage-axis extent fails with an index
error and leaves the container file unchanged, rather than growing the
series; mode "new" provisions all six series with stage-axis extent 1; and
every successful save leaves all six extents unchanged, so the extents stay
identical across the six series and trivially never shrink. -/
theorem c2_stage_axis_never_grows :
    (∀ ds fs ds1 fs1, DataStore.init_mode ds fs "new" = (ds1, fs1, none) →
        stageLens fs1 = [1, 1, 1, 1, 1, 1]) ∧
    (∀ ds fs (q : Quantity) (v : q.Slice) stage, ds.h5_file = some () →
        0 < lenQ fs q → lenQ fs q ≤ stage →
        saveQ ds fs q v stage = (fs, some .indexError)) ∧
    (∀ ds fs (q : Quantity) (v : q.Slice) stage fs1,
        saveQ ds fs q v stage = (fs1, none) → stageLens fs1 = stageLens fs) := by
  refine ⟨?_,
    fun ds fs q v stage hopen hpos hge =>
      saveQ_oob_indexError ds fs q v stage hopen hpos hge,
    fun ds fs q v stage fs1 h => saveQ_preserves_lens ds fs fs1 q v stage h⟩
  intro ds fs ds1 fs1 h
  unfold DataStore.init_mode at h
  rw [if_pos rfl] at h
  by_cases hd : fs.dataDirExists
  · rw [if_pos hd] at h
    simp at h
  · rw [if_neg hd] at h
    rcases hfs : fs.h5 with _ | h5
    · simp only [hfs] at h
      rw [Prod.mk.injEq, Prod.mk.injEq] at h
      obtain ⟨-, e2, -⟩ := h
      rw [← e2]
      simp [stageLens, lenQ, setupH5Datasets]
    · simp only [hfs] at h
      simp at h

/-- C2 witness: the amended statement evaluated on the tiny store. -/
theorem c2_stage_axis_never_grows_witness :
    stageLens fsTiny = [1, 1, 1, 1, 1, 1] ∧
    saveQ dsTinyOpen fsTiny .lambdas [(0 : ℚ)] 1 = (fsTiny, some .indexError) ∧
    stageLens fsTinySaved = stageLens fsTiny :=
  ⟨c2_stage_axis_never_grows.1 dsTiny FS.empty dsTinyOpen fsTiny (by decide),
   c2_stage_axis_never_grows.2.1 dsTinyOpen fsTiny .lambdas [(0 : ℚ)] 1 (by decide)
     (by decide) (by decide),
   c2_stage_axis_never_grows.2.2 dsTinyOpen fsTiny .lambdas [(5 : ℚ)] 0 fsTinySaved
     (by decide)⟩

/-- Write of an in-range stage with a correctly shaped value succeeds for
every quantity, provided the handle is open. -/
theorem saveQ_snd_none (ds : DataStore) (fs : FS) (q : Quantity) (v : q.Slice)
    (stage : ℕ) (hopen : ds.h5_file = some ()) (hlt : stage < lenQ fs q)
    (hsh : shapeOkQ fs q v = true) : (saveQ ds fs q v stage).2 = none := by
  cases q
  case positions =>
    simp only [saveQ]
    unfold DataStore.save_positions
    simp only [hopen]
    rcases hfs : fs.h5 with _ | h5
    · unfold lenQ at hlt
      simp only [hfs] at hlt
      all_goals omega
    · rcases hp : h5.positions with _ | d
      · unfold lenQ at hlt
        simp only [hfs, hp] at hlt
        all_goals omega
      · simp only [hp]
        unfold lenQ at hlt
        simp only [hfs, hp] at hlt
        simp only [shapeOkQ] at hsh
        simp only [hfs, hp] at hsh
        unfold Dset3.write
        rw [if_pos hlt, if_pos hsh]
  case velocities =>
    simp only [saveQ]
    unfold DataStore.save_velocities
    simp only [hopen]
    rcases hfs : fs.h5 with _ | h5
    · unfold lenQ at hlt
      simp only [hfs] at hlt
      all_goals omega
    · rcases hp : h5.velocities with _ | d
      · unfold lenQ at hlt
        simp only [hfs, hp] at hlt
        all_goals omega
      · simp only [hp]
        unfold lenQ at hlt
        simp only [hfs, hp] at hlt
        simp only [shapeOkQ] at hsh
        simp only [hfs, hp] at hsh
        unfold Dset3.write
        rw [if_pos hlt, if_pos hsh]
  case spring_states =>
    simp only [saveQ]
    unfold DataStore.save_spring_states
    simp only [hopen]
    rcases hfs : fs.h5 with _ | h5
    · unfold lenQ at hlt
      simp only [hfs] at hlt
      all_goals omega
    · rcases hp : h5.spring_states with _ | d
      · unfold lenQ at hlt
        simp only [hfs, hp] at hlt
        all_goals omega
      · simp only [hp]
        unfold lenQ at hlt
        simp only [hfs, hp] at hlt
        simp only [shapeOkQ] at hsh
        simp only [hfs, hp] at hsh
        unfold Dset2.write
        rw [if_pos hlt, if_pos hsh]
  case spring_energies =>
    simp only [saveQ]
    unfold DataStore.save_spring_energies
    simp only [hopen]
    rcases hfs : fs.h5 with _ | h5
    · unfold lenQ at hlt
      simp only [hfs] at hlt
      all_goals omega
    · rcases hp : h5.spring_energies with _ | d
      · unfold lenQ at hlt
        simp only [hfs, hp] at hlt
        all_goals omega
      · simp only [hp]
        unfold lenQ at hlt
        simp only [hfs, hp] at hlt
        simp only [shapeOkQ] at hsh
        simp only [hfs, hp] at hsh
        unfold Dset2.write
        rw [if_pos hlt, if_pos hsh]
  case lambdas =>
    simp only [saveQ]
    unfold DataStore.save_lambdas
    simp only [hopen]
    rcases hfs : fs.h5 with _ | h5
    · unfold lenQ at hlt
      simp only [hfs] at hlt
      all_goals omega
    · rcases hp : h5.lambdas with _ | d
      · unfold lenQ at hlt
        simp only [hfs, hp] at hlt
        all_goals omega
      · simp only [hp]
        unfold lenQ at hlt
        simp only [hfs, hp] at hlt
        simp only [shapeOkQ] at hsh
        simp only [hfs, hp] at hsh
        unfold Dset1.write
        rw [if_pos hlt, if_pos hsh]
  case energies =>
    simp only [saveQ]
    unfold DataStore.save_energies
    simp only [hopen]
    rcases hfs : fs.h5 with _ | h5
    · unfold lenQ at hlt
      simp only [hfs] at hlt
      all_goals omega
    · rcases hp : h5.energies with _ | d
      · unfold lenQ at hlt
        simp only [hfs, hp] at hlt
        all_goals omega
      · simp only [hp]
        unfold lenQ at hlt
        simp only [hfs, hp] at hlt
        simp only [shapeOkQ] at hsh
        simp only [hfs, hp] at hsh
        unfold Dset1.write
        rw [if_pos hlt, if_pos hsh]

/-- C8: after a due backup returns without error, the container handle is
open again, the container contents are unchanged, and subsequent loads of
in-range stages and saves of correctly shaped values at in-range stages on
the same store succeed. -/
theorem c8_backup_reopens (ds ds1 : DataStore) (fs fs1 : FS) (stage : ℕ)
    (hfreq : ds.backup_freq ≠ 0) (hdue : stage % ds.backup_freq = 0)
    (hopen : ds.h5_file = some ()) (hfile : fs.h5.isSome = true)
    (hb : DataStore.backup ds fs stage = (ds1, fs1, none)) :
    ds1.h5_file = some () ∧ fs1.h5 = fs.h5 ∧
    (∀ q stage2, stage2 < lenQ fs1 q → ∃ w, loadQ ds1 fs1 q stage2 = .ok w) ∧
    (∀ (q : Quantity) (v : q.Slice) stage2, stage2 < lenQ fs1 q →
      shapeOkQ fs1 q v = true → (saveQ ds1 fs1 q v stage2).2 = none) := by
  obtain ⟨c, hv⟩ := Option.isSome_iff_exists.mp hfile
  unfold DataStore.backup at hb
  rw [if_neg hfreq, if_pos hdue] at hb
  simp only [hopen, h5OpenAppend, hv] at hb
  rw [Prod.mk.injEq, Prod.mk.injEq] at hb
  obtain ⟨e1, e2, -⟩ := hb
  have hopen1 : ds1.h5_file = some () := by
    rw [← e1]
  refine ⟨hopen1, by rw [← e2, hv], ?_, ?_⟩
  · intro q stage2 hlt2
    exact loadQ_ok_of_lt ds1 fs1 q stage2 hopen1 hlt2
  · intro q v stage2 hlt2 hsh2
    exact saveQ_snd_none ds1 fs1 q v stage2 hopen1 hlt2 hsh2

/-- C8 witness: the due backup at stage 0 on the tiny store with sidecars. -/
theorem c8_backup_reopens_witness :
    dsTinyOpen.h5_file = some () ∧ fsBakDone.h5 = fsBak.h5 ∧
    (∀ q stage2, stage2 < lenQ fsBakDone q →
      ∃ w, loadQ dsTinyOpen fsBakDone q stage2 = .ok w) ∧
    (∀ (q : Quantity) (v : q.Slice) stage2, stage2 < lenQ fsBakDone q →
      shapeOkQ fsBakDone q v = true →
      (saveQ dsTinyOpen fsBakDone q v stage2).2 = none) :=
  c8_backup_reopens dsTinyOpen dsTinyOpen fsBak fsBakDone 0 (by decide) (by decide)
    (by decide) (by decide) (by decide)

/-- Live substrate fixture for witnesses. -/
def wTiny : MPIWorld :=
  { world_rank := 0, inScalar := 0, inState := stTiny, inStates := [], inRows := [] }

/-- Store with an open handle used by the serialization witness. -/
def dsC9 : DataStore := { DataStore.mkNew 2 3 4 with h5_file := some () }

/-- Communicator with a live channel used by the serialization witness. -/
def cC9 : MPIComm := MPIComm.init_mpi (MPIComm.mkNew 2 4 3) wTiny

/-- Filesystem with only the Data directory present. -/
def fsC9 : FS := { FS.empty with dataDirExists := true }

/-- Filesystem after saving the store. -/
def fsC9a : FS := (DataStore.save_data_store dsC9 fsC9).1

/-- Filesystem after additionally saving the communicator. -/
def fsC9b : FS := (DataStore.save_communicator fsC9a (MPIComm.getstate cC9)).1

/-- C9 witness: saving a store with an open handle and a communicator with a
live channel, then loading both back, yields handle-free objects. -/
theorem c9_no_live_handles_witness :
    (DataStore.setstate (DataStore.getstate dsC9)).h5_file = none ∧
    (MPIComm.setstate (MPIComm.getstate cC9)).mpi_comm = none :=
  c9_no_live_handles dsC9 cC9 fsC9 fsC9a fsC9b
    (DataStore.setstate (DataStore.getstate dsC9))
    (MPIComm.setstate (MPIComm.getstate cC9))
    (by decide) (by decide) rfl rfl

/-- Helper: rebuilding states replica by replica from the per-quantity
arrays extracted from them returns the original list. -/
theorem rebuild_states (states : List SystemState) (n : ℕ) (hn : states.length = n) :
    ((List.range n).map fun i =>
      ({ positions := (states.map fun s => s.positions).getD i [],
         velocities := (states.map fun s => s.velocities).getD i [],
         spring_states := (states.map fun s => s.spring_states).getD i [],
         lam := (states.map fun s => s.lam).getD i 0,
         energy := (states.map fun s => s.energy).getD i 0,
         spring_energies := (states.map fun s => s.spring_energies).getD i [] } : SystemState))
      = states := by
  subst hn
  apply List.ext_getElem
  · simp
  · intro i h1 h2
    simp only [List.getElem_map, List.getElem_range]
    have hi : i < states.length := h2
    simp [List.getD_eq_getElem, hi]

/-- Helper: a successful save of velocities leaves the loads of every other
quantity unchanged. -/
theorem save_velocities_keeps_others (ds : DataStore) (fs fs1 : FS) (v : Arr3)
    (stage stage2 : ℕ) (h : DataStore.save_velocities ds fs v stage = (fs1, none)) :
    DataStore.load_positions ds fs1 stage2 = DataStore.load_positions ds fs stage2 ∧
    DataStore.load_spring_states ds fs1 stage2 = DataStore.load_spring_states ds fs stage2 ∧
    DataStore.load_spring_energies ds fs1 stage2 = DataStore.load_spring_energies ds fs stage2 ∧
    DataStore.load_lambdas ds fs1 stage2 = DataStore.load_lambdas ds fs stage2 ∧
    DataStore.load_energies ds fs1 stage2 = DataStore.load_energies ds fs stage2 := by
  obtain ⟨h5, d, hds, hfs, hp, hlt, rfl⟩ := save_velocities_eq ds fs v stage fs1 h
  unfold DataStore.load_positions DataStore.load_spring_states DataStore.load_spring_energies DataStore.load_lambdas DataStore.load_energies
  simp [hds, hfs]

/-- Helper: a successful save of spring_states leaves the loads of every other
quantity unchanged. -/
theorem save_spring_states_keeps_others (ds : DataStore) (fs fs1 : FS) (v : Arr2)
    (stage stage2 : ℕ) (h : DataStore.save_spring_states ds fs v stage = (fs1, none)) :
    DataStore.load_positions ds fs1 stage2 = DataStore.load_positions ds fs stage2 ∧
    DataStore.load_velocities ds fs1 stage2 = DataStore.load_velocities ds fs stage2 ∧
    DataStore.load_spring_energies ds fs1 stage2 = DataStore.load_spring_energies ds fs stage2 ∧
    DataStore.load_lambdas ds fs1 stage2 = DataStore.load_lambdas ds fs stage2 ∧
    DataStore.load_energies ds fs1 stage2 = DataStore.load_energies ds fs stage2 := by
  obtain ⟨h5, d, hds, hfs, hp, hlt, rfl⟩ := save_spring_states_eq ds fs v stage fs1 h
  unfold DataStore.load_positions DataStore.load_velocities DataStore.load_spring_energies DataStore.load_lambdas DataStore.load_energies
  simp [hds, hfs]

/-- Helper: a successful save of spring_energies leaves the loads of every other
quantity unchanged. -/
theorem save_spring_energies_keeps_others (ds : DataStore) (fs fs1 : FS) (v : Arr2)
    (stage stage2 : ℕ) (h : DataStore.save_spring_energies ds fs v stage = (fs1, none)) :
    DataStore.load_positions ds fs1 stage2 = DataStore.load_positions ds fs stage2 ∧
    DataStore.load_velocities ds fs1 stage2 = DataStore.load_velocities ds fs stage2 ∧
    DataStore.load_spring_states ds fs1 stage2 = DataStore.load_spring_states ds fs stage2 ∧
    DataStore.load_lambdas ds fs1 stage2 = DataStore.load_lambdas ds fs stage2 ∧
    DataStore.load_energies ds fs1 stage2 = DataStore.load_energies ds fs stage2 := by
  obtain ⟨h5, d, hds, hfs, hp, hlt, rfl⟩ := save_spring_energies_eq ds fs v stage fs1 h
  unfold DataStore.load_positions DataStore.load_velocities DataStore.load_spring_states DataStore.load_lambdas DataStore.load_energies
  simp [hds, hfs]

/-- Helper: a successful save of lambdas leaves the loads of every other
quantity unchanged. -/
theorem save_lambdas_keeps_others (ds : DataStore) (fs fs1 : FS) (v : Arr1)
    (stage stage2 : ℕ) (h : DataStore.save_lambdas ds fs v stage = (fs1, none)) :
    DataStore.load_positions ds fs1 stage2 = DataStore.load_positions ds fs stage2 ∧
    DataStore.load_velocities ds fs1 stage2 = DataStore.load_velocities ds fs stage2 ∧
    DataStore.load_spring_states ds fs1 stage2 = DataStore.load_spring_states ds fs stage2 ∧
    DataStore.load_spring_energies ds fs1 stage2 = DataStore.load_spring_energies ds fs stage2 ∧
    DataStore.load_energies ds fs1 stage2 = DataStore.load_energies ds fs stage2 := by
  obtain ⟨h5, d, hds, hfs, hp, hlt, rfl⟩ := save_lambdas_eq ds fs v stage fs1 h
  unfold DataStore.load_positions DataStore.load_velocities DataStore.load_spring_states DataStore.load_spring_energies DataStore.load_energies
  simp [hds, hfs]

/-- Helper: a successful save of energies leaves the loads of every other
quantity unchanged. -/
theorem save_energies_keeps_others (ds : DataStore) (fs fs1 : FS) (v : Arr1)
    (stage stage2 : ℕ) (h : DataStore.save_energies ds fs v stage = (fs1, none)) :
    DataStore.load_positions ds fs1 stage2 = DataStore.load_positions ds fs stage2 ∧
    DataStore.load_velocities ds fs1 stage2 = DataStore.load_velocities ds fs stage2 ∧
    DataStore.load_spring_states ds fs1 stage2 = DataStore.load_spring_states ds fs stage2 ∧
    DataStore.load_spring_energies ds fs1 stage2 = DataStore.load_spring_energies ds fs stage2 ∧
    DataStore.load_lambdas ds fs1 stage2 = DataStore.load_lambdas ds fs stage2 := by
  obtain ⟨h5, d, hds, hfs, hp, hlt, rfl⟩ := save_energies_eq ds fs v stage fs1 h
  unfold DataStore.load_positions DataStore.load_velocities DataStore.load_spring_states DataStore.load_spring_energies DataStore.load_lambdas
  simp [hds, hfs]

/-- Helper: the bind of a successful Except computation reduces to its
continuation. -/
theorem except_bind_ok {ε α β : Type} (a : α) (f : α → Except ε β) :
    (Except.ok a >>= f) = f a := rfl

/-- C6: saving a sequence of n_replicas states and loading the same stage
returns states equal to the input, replica by replica in index order, each
field element-wise equal (the state container type is modelled from the
spec, see `SystemState`). -/
theorem c6_states_round_trip (ds : DataStore) (fs fs1 : FS)
    (states : List SystemState) (stage : ℕ)
    (hlen : states.length = ds.n_replicas)
    (hsave : DataStore.save_states ds fs states stage = (fs1, none)) :
    DataStore.load_states ds fs1 stage = .ok states := by
  simp only [DataStore.save_states] at hsave
  rcases hs1 : DataStore.save_positions ds fs
      (states.map fun s => s.positions) stage with ⟨fsa, oa⟩
  cases oa
  case some e => simp [hs1] at hsave
  case none =>
  simp only [hs1] at hsave
  rcases hs2 : DataStore.save_velocities ds fsa
      (states.map fun s => s.velocities) stage with ⟨fsb, ob⟩
  cases ob
  case some e => simp [hs2] at hsave
  case none =>
  simp only [hs2] at hsave
  rcases hs3 : DataStore.save_spring_states ds fsb
      (states.map fun s => s.spring_states) stage with ⟨fsc, oc⟩
  cases oc
  case some e => simp [hs3] at hsave
  case none =>
  simp only [hs3] at hsave
  rcases hs4 : DataStore.save_spring_energies ds fsc
      (states.map fun s => s.spring_energies) stage with ⟨fsd, od⟩
  cases od
  case some e => simp [hs4] at hsave
  case none =>
  simp only [hs4] at hsave
  rcases hs5 : DataStore.save_lambdas ds fsd
      (states.map fun s => s.lam) stage with ⟨fse, oe⟩
  cases oe
  case some e => simp [hs5] at hsave
  case none =>
  simp only [hs5] at hsave
  rcases hs6 : DataStore.save_energies ds fse
      (states.map fun s => s.energy) stage with ⟨fsf, og⟩
  cases og
  case some e => simp [hs6] at hsave
  case none =>
  simp only [hs6] at hsave
  rw [Prod.mk.injEq] at hsave
  obtain ⟨e1, -⟩ := hsave
  subst e1
  have hs1a : saveQ ds fs .positions (states.map fun s => s.positions) stage
      = (fsa, none) := hs1
  have hp1 : DataStore.load_positions ds fsa stage
      = .ok (states.map fun s => s.positions) := by
    exact saveQ_load_eq ds fs fsa .positions _ stage hs1a
  have hs2a : saveQ ds fsa .velocities (states.map fun s => s.velocities) stage
      = (fsb, none) := hs2
  have hv1 : DataStore.load_velocities ds fsb stage
      = .ok (states.map fun s => s.velocities) := by
    exact saveQ_load_eq ds fsa fsb .velocities _ stage hs2a
  have hs3a : saveQ ds fsb .spring_states (states.map fun s => s.spring_states) stage
      = (fsc, none) := hs3
  have hss1 : DataStore.load_spring_states ds fsc stage
      = .ok (states.map fun s => s.spring_states) := by
    exact saveQ_load_eq ds fsb fsc .spring_states _ stage hs3a
  have hs4a : saveQ ds fsc .spring_energies (states.map fun s => s.spring_energies) stage
      = (fsd, none) := hs4
  have hse1 : DataStore.load_spring_energies ds fsd stage
      = .ok (states.map fun s => s.spring_energies) := by
    exact saveQ_load_eq ds fsc fsd .spring_energies _ stage hs4a
  have hs5a : saveQ ds fsd .lambdas (states.map fun s => s.lam) stage
      = (fse, none) := hs5
  have hl1 : DataStore.load_lambdas ds fse stage
      = .ok (states.map fun s => s.lam) := by
    exact saveQ_load_eq ds fsd fse .lambdas _ stage hs5a
  have hs6a : saveQ ds fse .energies (states.map fun s => s.energy) stage
      = (fsf, none) := hs6
  have he1 : DataStore.load_energies ds fsf stage
      = .ok (states.map fun s => s.energy) := by
    exact saveQ_load_eq ds fse fsf .energies _ stage hs6a
  obtain ⟨k2p, k2ss, k2se, k2l, k2e⟩ :=
    save_velocities_keeps_others ds fsa fsb _ stage stage hs2
  obtain ⟨k3p, k3v, k3se, k3l, k3e⟩ :=
    save_spring_states_keeps_others ds fsb fsc _ stage stage hs3
  obtain ⟨k4p, k4v, k4ss, k4l, k4e⟩ :=
    save_spring_energies_keeps_others ds fsc fsd _ stage stage hs4
  obtain ⟨k5p, k5v, k5ss, k5se, k5e⟩ :=
    save_lambdas_keeps_others ds fsd fse _ stage stage hs5
  obtain ⟨k6p, k6v, k6ss, k6se, k6l⟩ :=
    save_energies_keeps_others ds fse fsf _ stage stage hs6
  have Hp : DataStore.load_positions ds fsf stage
      = .ok (states.map fun s => s.positions) := by
    rw [k6p, k5p, k4p, k3p, k2p]
    exact hp1
  have Hv : DataStore.load_velocities ds fsf stage
      = .ok (states.map fun s => s.velocities) := by
    rw [k6v, k5v, k4v, k3v]
    exact hv1
  have Hss : DataStore.load_spring_states ds fsf stage
      = .ok (states.map fun s => s.spring_states) := by
    rw [k6ss, k5ss, k4ss]
    exact hss1
  have Hse : DataStore.load_spring_energies ds fsf stage
      = .ok (states.map fun s => s.spring_energies) := by
    rw [k6se, k5se]
    exact hse1
  have Hl : DataStore.load_lambdas ds fsf stage
      = .ok (states.map fun s => s.lam) := by
    rw [k6l]
    exact hl1
  unfold DataStore.load_states
  rw [Hp, Hv, Hss, Hse, Hl, he1]
  simp only [except_bind_ok]
  rw [if_pos (by simp [hlen])]
  rw [rebuild_states states ds.n_replicas hlen]

/-- Filesystem after saving one tiny state at stage 0. -/
def fsC6 : FS := (DataStore.save_states dsTinyOpen fsTiny [stTiny] 0).1

/-- C6 witness: the one-replica tiny store round-trips a state list. -/
theorem c6_states_round_trip_witness :
    DataStore.load_states dsTinyOpen fsC6 0 = .ok [stTiny] :=
  c6_states_round_trip dsTinyOpen fsTiny fsC6 [stTiny] 0 (by decide) (by decide)
